import Mathlib

/-!
Shallow embedding of the `Fabric` physics/state-machine core of
elastic-interval/galapagotchi (`src/eig/src/fabric.rs`).

Modelling conventions:
* `f32` values are idealised as exact rationals (`ℚ`).
* Machine integers (`u32`, `u16`) are `Nat` with explicit `% 2 ^ 32` /
  `% 2 ^ 16` at the places where the source casts or where release-mode
  wrapping arithmetic occurs.
* Code that can panic (`unwrap` of an empty iterator's max/min, slice
  indexing out of bounds) is embedded in the `Option` monad; `none` models
  a panic.
* The repository files `interval.rs`, `joint.rs`, `world.rs` and
  `constants.rs` are not part of the provided sources; the definitions
  that stand in for them carry a doc comment starting `Modelled from the
  spec:` and follow the specification's wording.  `fabric.rs` itself is
  translated directly.
-/

namespace Galapagotchi

/-- Lifecycle stage of a fabric (spec section 4.4; the `Stage` enum of
`constants.rs`, whose six variants are all named in `fabric.rs`). -/
inductive Stage where
  | Busy
  | Growing
  | Shaping
  | Slack
  | Realizing
  | Realized
deriving DecidableEq, Repr

/-- Modelled from the spec: a connector's role is push (compression) or
pull (tension).  The concrete `IntervalRole` enum lives in the missing
`constants.rs`; only the push/pull distinction is observable in
`fabric.rs` (via `is_push`). -/
inductive IntervalRole where
  | Push
  | Pull
deriving DecidableEq, Repr

/-- A 3-component vector over exact rationals, standing in for
`nalgebra` `Vector3<f32>` / `Point3<f32>`. -/
structure V3 where
  x : ℚ
  y : ℚ
  z : ℚ
deriving DecidableEq, Repr

def V3.zero : V3 := ⟨0, 0, 0⟩

def V3.add (a b : V3) : V3 := ⟨a.x + b.x, a.y + b.y, a.z + b.z⟩

def V3.sub (a b : V3) : V3 := ⟨a.x - b.x, a.y - b.y, a.z - b.z⟩

def V3.scale (c : ℚ) (a : V3) : V3 := ⟨c * a.x, c * a.y, c * a.z⟩

/-- Modelled from the spec: squared Euclidean distance.  The missing
`interval.rs` measures Euclidean lengths in `f32`; over exact rationals
the Euclidean norm is not available, so measured length is modelled by
the squared distance, which preserves every property the claims state
about measured lengths (none of them depends on the metric's values). -/
def V3.quadrance (a b : V3) : ℚ :=
  (a.x - b.x) ^ 2 + (a.y - b.y) ^ 2 + (a.z - b.z) ^ 2

/-- Modelled from the spec (section 3): a joint is a point mass with
position, velocity and a force accumulator; `interval_mass` is the mass
contribution accumulated from connectors (spec section 4.1). -/
structure Joint where
  location : V3
  velocity : V3
  force : V3
  interval_mass : ℚ
deriving DecidableEq, Repr

/-- Modelled from the spec: `Joint::new(x, y, z)` of the missing
`joint.rs` — position as given, velocity and force zero, unit mass. -/
def Joint.new (x y z : ℚ) : Joint :=
  { location := ⟨x, y, z⟩, velocity := V3.zero, force := V3.zero, interval_mass := 1 }

/-- Modelled from the spec (sections 3 and 4.2): a connector carries its
endpoint indices, role, rest length, stiffness, mass-density
contribution, the countdown of an in-flight rest-length ramp together
with the ramp's recorded target, the most recently computed strain, and
a small table of per-shape stored rest lengths. -/
structure Interval where
  alpha_index : Nat
  omega_index : Nat
  interval_role : IntervalRole
  rest_length : ℚ
  stiffness : ℚ
  linear_density : ℚ
  countdown : Nat
  target_length : ℚ
  strain : ℚ
  length_for_shape : List ℚ
deriving DecidableEq, Repr

def Interval.is_push (i : Interval) : Bool :=
  i.interval_role = IntervalRole.Push

/-- A face: an ordered triple of joint indices (`face.rs` constructor as
called from `fabric.rs`). -/
structure Face where
  joint0 : Nat
  joint1 : Nat
  joint2 : Nat
deriving DecidableEq, Repr

/-- Modelled from the spec (section 6): the constants collaborator.  Only
the fields `fabric.rs` reads are modelled; counts are `Nat`, factors and
physical constants are `ℚ`. -/
structure World where
  iterations_per_frame : Nat
  realizing_countdown : Nat
  interval_countdown : Nat
  shaping_pretenst_factor : ℚ
  gravity : ℚ
  drag : ℚ
deriving DecidableEq, Repr

/-- The fabric aggregate (`fabric.rs` lines 16-25). -/
structure Fabric where
  age : Nat
  stage : Stage
  current_shape : Nat
  busy_countdown : Nat
  joints : List Joint
  intervals : List Interval
  faces : List Face
deriving DecidableEq, Repr

/-- Modelled from the spec: the `REST_SHAPE` constant of the missing
`constants.rs`, the default shape identifier. -/
def REST_SHAPE : Nat := 0

def U32 : Nat := 2 ^ 32

def U16 : Nat := 2 ^ 16

/-- Wrapping `u32` subtraction (release-mode Rust semantics of
`a - b` on `u32`), on `Nat` representatives. -/
def u32_wrapping_sub (a b : Nat) : Nat :=
  (a % U32 + U32 - b % U32) % U32

/-- `Fabric::new` (`fabric.rs` lines 29-39); capacity hints have no
observable effect in the model. -/
def Fabric.new (_joint_count : Nat) : Fabric :=
  { age := 0
    stage := Stage.Busy
    current_shape := REST_SHAPE
    busy_countdown := 0
    joints := []
    intervals := []
    faces := [] }

/-- `remove_interval` (`fabric.rs` lines 82-84); `Vec::remove` panics on
an out-of-range index, modelled by `none`. -/
def Fabric.remove_interval (f : Fabric) (index : Nat) : Option Fabric :=
  if index < f.intervals.length then
    some { f with intervals := f.intervals.eraseIdx index }
  else none

/-- `remove_face` (`fabric.rs` lines 92-94). -/
def Fabric.remove_face (f : Fabric) (index : Nat) : Option Fabric :=
  if index < f.faces.length then
    some { f with faces := f.faces.eraseIdx index }
  else none

/-- Modelled from the spec (section 4.2): the measured current length of
a connector, computed from the joint collection (face-bound reference
points of the missing `interval.rs` are not modelled; connectors join two
joints).  Out-of-range endpoint indices panic, hence `Option`. -/
def Interval.calculate_current_length (i : Interval) (joints : List Joint)
    (_faces : List Face) : Option ℚ := do
  let alpha ← joints.get? i.alpha_index
  let omega ← joints.get? i.omega_index
  pure (V3.quadrance alpha.location omega.location)

/-- Modelled from the spec (section 4.3): `Interval::multiply_rest_length`
of the missing `interval.rs` schedules a linear ramp of the rest length
to `factor` times the current rest length over `countdown` substeps;
`countdown = 0` applies the change instantaneously.  The shape argument
is carried from the call sites but the spec assigns it no observable
effect in this operation. -/
def Interval.multiply_rest_length (i : Interval) (factor : ℚ) (countdown : Nat)
    (_shape : Nat) : Interval :=
  if countdown = 0 then
    { i with rest_length := i.rest_length * factor
             target_length := i.rest_length * factor }
  else
    { i with target_length := i.rest_length * factor
             countdown := countdown }

/-- Modelled from the spec (section 4.2): one substep of connector
physics.  Computes current length and strain, derives a role-asymmetric
force magnitude (push members respond to compression, pull members to
extension), scales it by the realizing progress fraction during the
Realizing stage, adds equal and opposite force contributions to the two
endpoint joints, and advances the rest-length ramp: with countdown `c > 0`
the rest length moves by the fixed per-substep increment
(remaining change over remaining countdown, which in exact arithmetic
equals total change over original countdown) and the countdown decrements
by one, landing exactly on the target when it reaches zero. -/
def Interval.physics (i : Interval) (_w : World) (joints : List Joint)
    (stage : Stage) (realizing_nuance : ℚ) (_current_shape : Nat) :
    Option (List Joint × Interval) := do
  let len ← i.calculate_current_length joints []
  let strain := (len - i.rest_length) / i.rest_length
  let effective :=
    match i.interval_role with
    | IntervalRole.Push => if strain < 0 then strain else 0
    | IntervalRole.Pull => if 0 < strain then strain else 0
  let base := effective * i.stiffness * i.linear_density
  let magnitude := if stage = Stage.Realizing then base * realizing_nuance else base
  let alpha ← joints.get? i.alpha_index
  let omega ← joints.get? i.omega_index
  let axis := V3.sub omega.location alpha.location
  let joints2 := joints.set i.alpha_index
    { alpha with force := V3.add alpha.force (V3.scale magnitude axis) }
  let omega2 ← joints2.get? i.omega_index
  let joints3 := joints2.set i.omega_index
    { omega2 with force := V3.sub omega2.force (V3.scale magnitude axis) }
  let i2 :=
    if i.countdown = 0 then { i with strain := strain }
    else
      { i with strain := strain
               rest_length :=
                 i.rest_length + (i.target_length - i.rest_length) / (i.countdown : ℚ)
               countdown := i.countdown - 1 }
  pure (joints3, i2)

/-- Modelled from the spec (section 4.1): one substep of joint
integration — update velocity from gravity, drag and the accumulated
force scaled by the joint's mass, update position by the new velocity,
then reset the force accumulator to zero. -/
def Joint.physics (j : Joint) (w : World) : Joint :=
  let velocity :=
    V3.scale (1 - w.drag)
      (V3.add (V3.add j.velocity ⟨0, -w.gravity, 0⟩)
        (V3.scale (1 / j.interval_mass) j.force))
  { j with velocity := velocity
           location := V3.add j.location velocity
           force := V3.zero }

/-- The connector loop of `Fabric::tick` (`fabric.rs` lines 264-273):
each connector's physics runs in order, threading the mutable joint
collection through. -/
def run_intervals (w : World) (stage : Stage) (realizing_nuance : ℚ)
    (current_shape : Nat) :
    List Joint → List Interval → Option (List Joint × List Interval)
  | joints, [] => some (joints, [])
  | joints, i :: rest => do
    let (joints2, i2) ← i.physics w joints stage realizing_nuance current_shape
    let (joints3, rest2) ← run_intervals w stage realizing_nuance current_shape joints2 rest
    pure (joints3, i2 :: rest2)

/-- `Fabric::tick` (`fabric.rs` lines 263-277): connector physics for
every interval, then joint physics for every joint. -/
def Fabric.tick (f : Fabric) (w : World) (realizing_nuance : ℚ) : Option Fabric := do
  let (joints, intervals) ←
    run_intervals w f.stage realizing_nuance f.current_shape f.joints f.intervals
  pure { f with joints := joints.map (fun j => j.physics w)
                intervals := intervals }

/-- The substep loop of `Fabric::iterate` (`fabric.rs` lines 99-101). -/
def run_ticks (w : World) (realizing_nuance : ℚ) : Nat → Fabric → Option Fabric
  | 0, f => some f
  | n + 1, f => do
    let f2 ← f.tick w realizing_nuance
    run_ticks w realizing_nuance n f2

/-- `Fabric::iterate` up to and including the age update
(`fabric.rs` lines 97-102): compute the realizing nuance, run the
frame's substeps, and advance the wrapping `u32` age counter. -/
def after_substeps (f : Fabric) (w : World) : Option Fabric := do
  let realizing_nuance :=
    ((w.realizing_countdown : ℚ) - (f.busy_countdown : ℚ)) / (w.realizing_countdown : ℚ)
  let f2 ← run_ticks w realizing_nuance w.iterations_per_frame f
  pure { f2 with age := (f2.age + w.iterations_per_frame % U32) % U32 }

/-- `Fabric::set_stage` (`fabric.rs` lines 279-282). -/
def Fabric.set_stage (f : Fabric) (stage : Stage) : Fabric × Stage :=
  ({ f with stage := stage }, stage)

/-- `Fabric::start_realizing` (`fabric.rs` lines 284-287). -/
def Fabric.start_realizing (f : Fabric) (w : World) : Fabric × Stage :=
  Fabric.set_stage { f with busy_countdown := w.realizing_countdown % U32 }
    Stage.Realizing

/-- `Fabric::slack_to_shaping` (`fabric.rs` lines 289-297). -/
def Fabric.slack_to_shaping (f : Fabric) (w : World) : Fabric × Stage :=
  let countdown := w.interval_countdown % U16
  Fabric.set_stage
    { f with intervals :=
        f.intervals.map (fun i =>
          if i.is_push then
            i.multiply_rest_length w.shaping_pretenst_factor countdown REST_SHAPE
          else i) }
    Stage.Shaping

/-- `Fabric::set_altitude` (`fabric.rs` lines 162-176): find the lowest
joint altitude (panics — `none` — on an empty joint collection), shift
every joint vertically so the lowest sits at `altitude`, zero every
velocity, and return the applied shift. -/
def Fabric.set_altitude (f : Fabric) (altitude : ℚ) : Option (Fabric × ℚ) := do
  let low_y ← (f.joints.map (fun j => j.location.y)).min?
  let joints := f.joints.map (fun j =>
    { j with location := { j.location with y := j.location.y + (altitude - low_y) } })
  let joints2 := joints.map (fun j => { j with velocity := V3.zero })
  pure ({ f with joints := joints2 }, altitude - low_y)

/-- The interval loop of `Fabric::adopt_lengths` (`fabric.rs` lines
179-182): each connector's rest length is recomputed from the current
geometry and also written into the active shape's stored-length slot
(array indexing panics when the shape is out of range). -/
def adopt_intervals (shape : Nat) (joints : List Joint) (faces : List Face) :
    List Interval → Option (List Interval)
  | [] => some []
  | i :: rest => do
    let rl ← i.calculate_current_length joints faces
    if shape < i.length_for_shape.length then
      let rest2 ← adopt_intervals shape joints faces rest
      pure ({ i with rest_length := rl
                     length_for_shape := i.length_for_shape.set shape rl } :: rest2)
    else none

/-- `Fabric::adopt_lengths` (`fabric.rs` lines 178-189). -/
def Fabric.adopt_lengths (f : Fabric) : Option (Fabric × Stage) := do
  let intervals ← adopt_intervals f.current_shape f.joints f.faces f.intervals
  let joints := f.joints.map (fun j => { j with force := V3.zero, velocity := V3.zero })
  let (f2, _) ← Fabric.set_altitude { f with intervals := intervals, joints := joints } 0
  pure (f2.set_stage Stage.Slack)

/-- The busy gate of `Fabric::iterate` (`fabric.rs` lines 127-148),
translated faithfully including the unreachable promotion branch at
lines 132-137 (`busy_countdown == 0` tested inside `busy_countdown > 0`).
The `unwrap` of the maximum over an empty interval collection is `none`. -/
def Fabric.busy_gate (f : Fabric) (w : World) : Option (Fabric × Stage) := do
  let interval_busy ← (f.intervals.map (fun i => i.countdown)).max?
  if 0 < interval_busy then
    pure (f, Stage.Busy)
  else if 0 < f.busy_countdown then
    if f.busy_countdown = 0 then
      if f.stage = Stage.Realizing then
        pure (f.set_stage Stage.Realized)
      else
        pure (f, f.stage)
    else
      let next0 := u32_wrapping_sub f.busy_countdown w.iterations_per_frame
      let next := if f.busy_countdown < next0 then 0 else next0
      let f2 := { f with busy_countdown := next }
      if next = 0 then pure (f2, f2.stage) else pure (f2, Stage.Busy)
  else
    pure (f, Stage.Busy)

/-- `Fabric::iterate` (`fabric.rs` lines 96-149): substeps and age
update, then the stage machine with its early returns, then the busy
gate. -/
def Fabric.iterate (f : Fabric) (requested_stage : Stage) (w : World) :
    Option (Fabric × Stage) := do
  let f1 ← after_substeps f w
  match f1.stage with
  | Stage.Busy =>
    if requested_stage = Stage.Growing then
      pure (f1.set_stage requested_stage)
    else
      f1.busy_gate w
  | Stage.Growing => do
    let p ← f1.set_altitude 0
    p.1.busy_gate w
  | Stage.Shaping => do
    let p ← f1.set_altitude 0
    match requested_stage with
    | Stage.Realizing => pure (p.1.start_realizing w)
    | Stage.Slack => pure (p.1.set_stage Stage.Slack)
    | _ => p.1.busy_gate w
  | Stage.Slack =>
    match requested_stage with
    | Stage.Realizing => pure (f1.start_realizing w)
    | Stage.Shaping => pure (f1.slack_to_shaping w)
    | _ => f1.busy_gate w
  | _ => f1.busy_gate w

/-- `Fabric::finish_growing` (`fabric.rs` lines 191-193). -/
def Fabric.finish_growing (f : Fabric) : Fabric × Stage :=
  f.set_stage Stage.Shaping

/-- The minimum joint altitude of a fabric. -/
def Fabric.minY (f : Fabric) : Option ℚ :=
  (f.joints.map (fun j => j.location.y)).min?

/-- The path condition under which the stage machine of `iterate` falls
through to the busy gate: no early-return transition fires on this
frame, and the altitude resets of the Growing and Shaping branches do
not panic.  Evaluated on the post-substep fabric. -/
def reaches_busy_gate (f : Fabric) (requested_stage : Stage) : Bool :=
  match f.stage with
  | Stage.Busy => requested_stage ≠ Stage.Growing
  | Stage.Growing => !f.joints.isEmpty
  | Stage.Shaping =>
    !f.joints.isEmpty && requested_stage ≠ Stage.Realizing
      && requested_stage ≠ Stage.Slack
  | Stage.Slack =>
    requested_stage ≠ Stage.Realizing && requested_stage ≠ Stage.Shaping
  | Stage.Realizing => true
  | Stage.Realized => true

/-! ### Concrete objects used for witnesses and counterexamples

A joint at the origin joined to itself by a connector is a fixed point of
the substep physics (the connector axis is the zero vector and the strain
field already holds its recomputed value), which keeps concrete
evaluations of whole frames small. -/

/-- A static joint at the origin. -/
def joint0 : Joint := Joint.new 0 0 0

/-- A connector joining joint 0 to itself with rest length 1, whose
strain field already holds the fixed-point value −1. -/
def static_interval (role : IntervalRole) (cd : Nat) : Interval :=
  { alpha_index := 0
    omega_index := 0
    interval_role := role
    rest_length := 1
    stiffness := 1
    linear_density := 1
    countdown := cd
    target_length := 1
    strain := -1
    length_for_shape := [1] }

/-- A constants supplier with no gravity and no drag. -/
def calm_world (ipf rc ic : Nat) : World :=
  { iterations_per_frame := ipf
    realizing_countdown := rc
    interval_countdown := ic
    shaping_pretenst_factor := 2
    gravity := 0
    drag := 0 }

/-- A fabric in a given stage with a given busy countdown and given
collections. -/
def fabric_with (st : Stage) (busy : Nat) (js : List Joint) (ivs : List Interval)
    (fs : List Face) : Fabric :=
  { age := 0
    stage := st
    current_shape := 0
    busy_countdown := busy
    joints := js
    intervals := ivs
    faces := fs }

/-- A one-joint fabric in a given stage with a given busy countdown and
interval collection. -/
def fabric_of (st : Stage) (busy : Nat) (ivs : List Interval) : Fabric :=
  fabric_with st busy [joint0] ivs []

/-- A fabric with no joints, used to exhibit the panics of C9. -/
def headless : Fabric :=
  fabric_with Stage.Growing 0 [] [static_interval IntervalRole.Push 0] []

/-- The result fabric of `adopt_lengths` on
`fabric_of Stage.Busy 0 [static_interval IntervalRole.Push 0]`. -/
def fabricC4post : Fabric :=
  fabric_with Stage.Slack 0 [joint0]
    [{ static_interval IntervalRole.Push 0 with
        rest_length := 0, length_for_shape := [0] }] []

/-- A fabric with two intervals and two faces, used to exercise the
removal operations. -/
def fabricC10 : Fabric :=
  fabric_with Stage.Slack 0 [joint0]
    [static_interval IntervalRole.Push 0, static_interval IntervalRole.Pull 3]
    [Face.mk 0 1 2, Face.mk 3 4 5]

/-! ### Arithmetic helper lemmas -/

theorem u32_clamp (b ipf : Nat) (hb : b < U32) (hipf : ipf < U32) :
    (if b < u32_wrapping_sub b ipf then 0 else u32_wrapping_sub b ipf) =
      if ipf ≤ b then b - ipf else 0 := by
  unfold u32_wrapping_sub
  rw [Nat.mod_eq_of_lt hb, Nat.mod_eq_of_lt hipf]
  by_cases h : ipf ≤ b
  · have h1 : b + U32 - ipf = (b - ipf) + U32 := by omega
    rw [h1, Nat.add_mod_right, Nat.mod_eq_of_lt (by omega)]
    rw [if_neg (by omega), if_pos h]
  · have h1 : b + U32 - ipf < U32 := by omega
    rw [Nat.mod_eq_of_lt h1]
    rw [if_pos (by omega), if_neg h]

/-! ### List helper lemmas -/

theorem eraseIdx_get?_of_lt {α : Type} (l : List α) (i j : Nat) (h : j < i) :
    (l.eraseIdx i).get? j = l.get? j := by
  induction l generalizing i j with
  | nil => rfl
  | cons a l ih =>
    cases i with
    | zero => omega
    | succ k =>
      cases j with
      | zero => rfl
      | succ m => exact ih k m (by omega)

theorem eraseIdx_get?_of_gt {α : Type} (l : List α) (i j : Nat) (h : i < j) :
    (l.eraseIdx i).get? (j - 1) = l.get? j := by
  induction l generalizing i j with
  | nil => cases j with | zero => rfl | succ m => rfl
  | cons a l ih =>
    cases i with
    | zero =>
      cases j with
      | zero => omega
      | succ m => simp [List.eraseIdx]
    | succ k =>
      cases j with
      | zero => omega
      | succ m =>
        cases m with
        | zero => omega
        | succ t =>
          have := ih k (t + 1) (by omega)
          simpa [List.eraseIdx] using this

theorem foldl_min_map_add (l : List ℚ) (a c : ℚ) :
    List.foldl min (a + c) (l.map (fun y => y + c)) = (List.foldl min a l) + c := by
  induction l generalizing a with
  | nil => rfl
  | cons x l ih =>
    simp only [List.map_cons, List.foldl_cons]
    rw [min_add_add_right, ih]

theorem min?_map_add (l : List ℚ) (c : ℚ) :
    (l.map (fun y => y + c)).min? = l.min?.map (fun y => y + c) := by
  cases l with
  | nil => rfl
  | cons a l =>
    simp only [List.map_cons, List.min?_cons', foldl_min_map_add, Option.map_some']

/-! ### set_altitude lemmas -/

theorem set_altitude_inv (f : Fabric) (a : ℚ) (f2 : Fabric) (r : ℚ)
    (h : f.set_altitude a = some (f2, r)) :
    ∃ low, (f.joints.map (fun j => j.location.y)).min? = some low ∧ r = a - low ∧
      f2 = { f with joints := f.joints.map (fun j =>
        { j with location := { j.location with y := j.location.y + (a - low) }
                 velocity := V3.zero }) } := by
  unfold Fabric.set_altitude at h
  cases hm : (f.joints.map (fun j => j.location.y)).min? with
  | none => rw [hm] at h; exact absurd h (by simp)
  | some low =>
    rw [hm] at h
    refine ⟨low, rfl, ?_, ?_⟩
    · exact (Prod.mk.injEq _ _ _ _ ▸ (Option.some.injEq _ _ ▸ h)).2.symm
    · have h2 := (Prod.mk.injEq _ _ _ _ ▸ (Option.some.injEq _ _ ▸ h)).1
      rw [← h2, List.map_map]
      rfl

theorem set_altitude_none (f : Fabric) (a : ℚ) (hj : f.joints = []) :
    f.set_altitude a = none := by
  unfold Fabric.set_altitude
  rw [hj]
  rfl

theorem set_altitude_is_some (f : Fabric) (a : ℚ) (hne : f.joints ≠ []) :
    ∃ f2 r, f.set_altitude a = some (f2, r) := by
  unfold Fabric.set_altitude
  cases hm : (f.joints.map (fun j => j.location.y)).min? with
  | none =>
    rw [List.min?_eq_none_iff, List.map_eq_nil_iff] at hm
    exact absurd hm hne
  | some low => exact ⟨_, _, rfl⟩

theorem set_altitude_minY (f : Fabric) (a : ℚ) (f2 : Fabric) (r : ℚ)
    (h : f.set_altitude a = some (f2, r)) : f2.minY = some a := by
  obtain ⟨low, hm, hr, hf2⟩ := set_altitude_inv f a f2 r h
  subst hf2
  show ((f.joints.map (fun j : Joint =>
      { j with location := { j.location with y := j.location.y + (a - low) }
               velocity := V3.zero })).map (fun j : Joint => j.location.y)).min? = some a
  rw [List.map_map]
  show (f.joints.map ((fun y => y + (a - low)) ∘ (fun j : Joint => j.location.y))).min? = some a
  rw [← List.map_map, min?_map_add, hm, Option.map_some']
  congr 1
  ring

/-! ### Preservation lemmas for the substep loop -/

theorem physics_joints_length (i : Interval) (w : World) (js : List Joint)
    (st : Stage) (nu : ℚ) (cs : Nat) (js2 : List Joint) (i2 : Interval)
    (h : i.physics w js st nu cs = some (js2, i2)) : js2.length = js.length := by
  simp only [Interval.physics, Interval.calculate_current_length, Option.bind_eq_bind,
    Option.pure_def, Option.bind_eq_some] at h
  obtain ⟨len, ⟨ja, hja, jb, hjb, hlen⟩, ja2, hja2, jb2, hjb2, jc, hjc, h⟩ := h
  cases h
  simp [List.length_set]

theorem run_intervals_inv (w : World) (st : Stage) (nu : ℚ) (cs : Nat) :
    ∀ (l : List Interval) (js js2 : List Joint) (l2 : List Interval),
      run_intervals w st nu cs js l = some (js2, l2) →
      js2.length = js.length ∧ l2.length = l.length := by
  intro l
  induction l with
  | nil =>
    intro js js2 l2 h
    simp only [run_intervals] at h
    cases h
    exact ⟨rfl, rfl⟩
  | cons i rest ih =>
    intro js js2 l2 h
    simp only [run_intervals, Option.bind_eq_bind, Option.pure_def, Option.bind_eq_some] at h
    obtain ⟨⟨jsa, ia⟩, ha, ⟨jsb, lb⟩, hb, h⟩ := h
    cases h
    have h1 := physics_joints_length i w js st nu cs jsa ia ha
    have h2 := ih jsa jsb lb hb
    refine ⟨h2.1.trans h1, ?_⟩
    simp [h2.2]

theorem tick_inv (f : Fabric) (w : World) (nu : ℚ) (f2 : Fabric)
    (h : f.tick w nu = some f2) :
    f2.stage = f.stage ∧ f2.busy_countdown = f.busy_countdown ∧
      f2.current_shape = f.current_shape ∧ f2.age = f.age ∧ f2.faces = f.faces ∧
      f2.joints.length = f.joints.length ∧ f2.intervals.length = f.intervals.length := by
  simp only [Fabric.tick, Option.bind_eq_bind, Option.pure_def, Option.bind_eq_some] at h
  obtain ⟨⟨js, l⟩, hrun, h⟩ := h
  cases h
  have := run_intervals_inv w f.stage nu f.current_shape f.intervals f.joints js l hrun
  simpa using this

theorem run_ticks_inv (w : World) (nu : ℚ) :
    ∀ (n : Nat) (f f2 : Fabric), run_ticks w nu n f = some f2 →
      f2.stage = f.stage ∧ f2.busy_countdown = f.busy_countdown ∧
        f2.current_shape = f.current_shape ∧ f2.age = f.age ∧ f2.faces = f.faces ∧
        f2.joints.length = f.joints.length ∧ f2.intervals.length = f.intervals.length := by
  intro n
  induction n with
  | zero =>
    intro f f2 h
    simp only [run_ticks] at h
    cases h
    exact ⟨rfl, rfl, rfl, rfl, rfl, rfl, rfl⟩
  | succ n ih =>
    intro f f2 h
    simp only [run_ticks, Option.bind_eq_bind, Option.bind_eq_some] at h
    obtain ⟨fa, ha, hb⟩ := h
    have h1 := tick_inv f w nu fa ha
    have h2 := ih fa f2 hb
    exact ⟨h2.1.trans h1.1, h2.2.1.trans h1.2.1, h2.2.2.1.trans h1.2.2.1,
      h2.2.2.2.1.trans h1.2.2.2.1, h2.2.2.2.2.1.trans h1.2.2.2.2.1,
      h2.2.2.2.2.2.1.trans h1.2.2.2.2.2.1, h2.2.2.2.2.2.2.trans h1.2.2.2.2.2.2⟩

theorem after_substeps_inv (f : Fabric) (w : World) (f1 : Fabric)
    (h : after_substeps f w = some f1) :
    f1.stage = f.stage ∧ f1.busy_countdown = f.busy_countdown ∧
      f1.current_shape = f.current_shape ∧ f1.faces = f.faces ∧
      f1.joints.length = f.joints.length ∧ f1.intervals.length = f.intervals.length := by
  simp only [after_substeps, Option.bind_eq_bind, Option.pure_def, Option.bind_eq_some] at h
  obtain ⟨fa, ha, hb⟩ := h
  cases hb
  have := run_ticks_inv w _ w.iterations_per_frame f fa ha
  exact ⟨this.1, this.2.1, this.2.2.1, this.2.2.2.2.1, this.2.2.2.2.2.1, this.2.2.2.2.2.2⟩

theorem tick_nil (f : Fabric) (w : World) (nu : ℚ) (h : f.intervals = []) :
    f.tick w nu =
      some { f with joints := f.joints.map (fun j => j.physics w), intervals := [] } := by
  unfold Fabric.tick
  rw [h]
  rfl

theorem run_ticks_nil (w : World) (nu : ℚ) :
    ∀ (n : Nat) (f : Fabric), f.intervals = [] →
      ∃ f1, run_ticks w nu n f = some f1 ∧ f1.intervals = [] ∧ f1.stage = f.stage ∧
        f1.busy_countdown = f.busy_countdown ∧ f1.joints.length = f.joints.length ∧
        f1.age = f.age := by
  intro n
  induction n with
  | zero => intro f h; exact ⟨f, rfl, h, rfl, rfl, rfl, rfl⟩
  | succ n ih =>
    intro f h
    obtain ⟨f1, h1, h2, h3, h4, h5, h6⟩ :=
      ih { f with joints := f.joints.map (fun j => j.physics w), intervals := [] } rfl
    refine ⟨f1, ?_, h2, h3, h4, ?_, h6⟩
    · simp only [run_ticks, Option.bind_eq_bind, tick_nil f w nu h, Option.some_bind]
      exact h1
    · simpa using h5

theorem after_substeps_nil (f : Fabric) (w : World) (h : f.intervals = []) :
    ∃ f1, after_substeps f w = some f1 ∧ f1.intervals = [] ∧ f1.stage = f.stage ∧
      f1.busy_countdown = f.busy_countdown ∧ f1.joints.length = f.joints.length := by
  obtain ⟨fa, h1, h2, h3, h4, h5, h6⟩ := run_ticks_nil w
    (((w.realizing_countdown : ℚ) - (f.busy_countdown : ℚ)) / (w.realizing_countdown : ℚ))
    w.iterations_per_frame f h
  refine ⟨{ fa with age := (fa.age + w.iterations_per_frame % U32) % U32 }, ?_, h2, h3, h4, h5⟩
  simp only [after_substeps, Option.bind_eq_bind, h1, Option.some_bind, Option.pure_def]

/-! ### Busy-gate lemmas -/

theorem busy_gate_nil (f : Fabric) (w : World) (h : f.intervals = []) :
    f.busy_gate w = none := by
  unfold Fabric.busy_gate
  rw [h]
  rfl

theorem busy_gate_busy_of_max_pos (f : Fabric) (w : World) (m : Nat)
    (hm : (f.intervals.map (fun i => i.countdown)).max? = some m) (h0 : 0 < m) :
    f.busy_gate w = some (f, Stage.Busy) := by
  unfold Fabric.busy_gate
  rw [hm]
  simp [h0]

theorem busy_gate_joints (f : Fabric) (w : World) (f2 : Fabric) (s : Stage)
    (h : f.busy_gate w = some (f2, s)) :
    f2.joints = f.joints ∧ f2.intervals = f.intervals ∧
      f2.current_shape = f.current_shape ∧ f2.age = f.age ∧ f2.faces = f.faces := by
  simp only [Fabric.busy_gate, Option.bind_eq_bind, Option.pure_def, Option.bind_eq_some] at h
  obtain ⟨m, hm, h⟩ := h
  repeat' split at h
  all_goals (cases h; exact ⟨rfl, rfl, rfl, rfl, rfl⟩)

theorem busy_gate_decrement (f : Fabric) (w : World)
    (hm : (f.intervals.map (fun i => i.countdown)).max? = some 0)
    (hb : 0 < f.busy_countdown) (hb32 : f.busy_countdown < U32)
    (hipf : w.iterations_per_frame < U32) :
    (f.busy_gate w).map (fun p => p.1.busy_countdown) =
      some (if w.iterations_per_frame ≤ f.busy_countdown
            then f.busy_countdown - w.iterations_per_frame else 0) := by
  unfold Fabric.busy_gate
  rw [hm]
  have hc := u32_clamp f.busy_countdown w.iterations_per_frame hb32 hipf
  simp only [Option.bind_eq_bind, Option.some_bind, lt_irrefl, if_false, if_pos hb,
    if_neg (Nat.pos_iff_ne_zero.mp hb)]
  split
  · next h1 =>
    rw [if_pos h1] at hc
    simp [← hc]
  · next h1 =>
    rw [if_neg h1] at hc
    split <;> simp [hc]

/-! ### Routing of iterate to the busy gate -/

theorem iterate_gate (f f1 : Fabric) (req : Stage) (w : World)
    (hsub : after_substeps f w = some f1) (hg : reaches_busy_gate f1 req = true) :
    ∃ fg : Fabric, f.iterate req w = fg.busy_gate w ∧
      fg.intervals = f1.intervals ∧ fg.busy_countdown = f1.busy_countdown ∧
      fg.stage = f1.stage ∧ fg.joints.length = f1.joints.length := by
  unfold Fabric.iterate
  rw [hsub]
  simp only [Option.some_bind, Option.bind_eq_bind]
  cases hs : f1.stage with
  | Busy =>
    simp only [reaches_busy_gate, hs] at hg
    refine ⟨f1, ?_, rfl, rfl, hs, rfl⟩
    show (if req = Stage.Growing then pure (f1.set_stage req) else f1.busy_gate w) =
      f1.busy_gate w
    rw [if_neg (of_decide_eq_true hg)]
  | Growing =>
    simp only [reaches_busy_gate, hs, Bool.not_eq_eq_eq_not, Bool.not_true,
      List.isEmpty_eq_false, ne_eq] at hg
    obtain ⟨f2, r, hsa⟩ := set_altitude_is_some f1 0 hg
    obtain ⟨low, hlow, hr, hf2⟩ := set_altitude_inv f1 0 f2 r hsa
    refine ⟨f2, ?_, ?_, ?_, ?_, ?_⟩
    · show (f1.set_altitude 0).bind (fun p => p.1.busy_gate w) = f2.busy_gate w
      rw [hsa]
      rfl
    · rw [hf2]
    · rw [hf2]
    · rw [hf2]; exact hs
    · rw [hf2]; simp
  | Shaping =>
    simp only [reaches_busy_gate, hs, Bool.and_eq_true, Bool.not_eq_eq_eq_not, Bool.not_true,
      List.isEmpty_eq_false, ne_eq, decide_eq_true_eq] at hg
    obtain ⟨⟨hne, hr1⟩, hr2⟩ := hg
    obtain ⟨f2, r, hsa⟩ := set_altitude_is_some f1 0 hne
    obtain ⟨low, hlow, hrr, hf2⟩ := set_altitude_inv f1 0 f2 r hsa
    refine ⟨f2, ?_, ?_, ?_, ?_, ?_⟩
    · show ((f1.set_altitude 0).bind fun p =>
        match req with
        | Stage.Realizing => pure (p.1.start_realizing w)
        | Stage.Slack => pure (p.1.set_stage Stage.Slack)
        | _ => p.1.busy_gate w) = f2.busy_gate w
      rw [hsa]
      cases req
      case Realizing => exact absurd rfl hr1
      case Slack => exact absurd rfl hr2
      all_goals rfl
    · rw [hf2]
    · rw [hf2]
    · rw [hf2]; exact hs
    · rw [hf2]; simp
  | Slack =>
    simp only [reaches_busy_gate, hs, Bool.and_eq_true, decide_eq_true_eq, ne_eq] at hg
    obtain ⟨hr1, hr2⟩ := hg
    refine ⟨f1, ?_, rfl, rfl, hs, rfl⟩
    cases req
    case Realizing => exact absurd rfl hr1
    case Shaping => exact absurd rfl hr2
    all_goals rfl
  | Realizing => exact ⟨f1, rfl, rfl, rfl, hs, rfl⟩
  | Realized => exact ⟨f1, rfl, rfl, rfl, hs, rfl⟩

theorem reaches_busy_gate_congr (f f1 : Fabric) (req : Stage)
    (hst : f1.stage = f.stage) (hlen : f1.joints.length = f.joints.length) :
    reaches_busy_gate f1 req = reaches_busy_gate f req := by
  have hemp : f1.joints.isEmpty = f.joints.isEmpty := by
    cases hj1 : f1.joints <;> cases hj : f.joints <;> simp_all
  unfold reaches_busy_gate
  rw [hst, hemp]

theorem iterate_growing (f f1 : Fabric) (req : Stage) (w : World)
    (hsub : after_substeps f w = some f1) (hst : f1.stage = Stage.Growing) :
    f.iterate req w = (f1.set_altitude 0).bind (fun p => p.1.busy_gate w) := by
  unfold Fabric.iterate
  rw [hsub]
  simp only [Option.some_bind, Option.bind_eq_bind]
  rw [hst]

theorem iterate_shaping (f f1 : Fabric) (req : Stage) (w : World)
    (hsub : after_substeps f w = some f1) (hst : f1.stage = Stage.Shaping) :
    f.iterate req w = (f1.set_altitude 0).bind (fun p =>
      match req with
      | Stage.Realizing => pure (p.1.start_realizing w)
      | Stage.Slack => pure (p.1.set_stage Stage.Slack)
      | _ => p.1.busy_gate w) := by
  unfold Fabric.iterate
  rw [hsub]
  simp only [Option.some_bind, Option.bind_eq_bind]
  rw [hst]

theorem iterate_slack_shaping (f f1 : Fabric) (w : World)
    (hsub : after_substeps f w = some f1) (hst : f1.stage = Stage.Slack) :
    f.iterate Stage.Shaping w = some (f1.slack_to_shaping w) := by
  unfold Fabric.iterate
  rw [hsub]
  simp only [Option.some_bind, Option.bind_eq_bind]
  rw [hst]
  rfl

/-! ### Claim theorems -/

/-- C2 (amended): whenever the stage-machine evaluation of a frame
reaches the busy gate (no stage-transition early return fires on this
frame), if the maximum countdown across all intervals after the frame's
substeps is greater than 0, the stage reported for that frame is Busy. -/
theorem busy_masks_stage_at_gate (f f1 : Fabric) (req : Stage) (w : World) (m : Nat)
    (hsub : after_substeps f w = some f1)
    (hgate : reaches_busy_gate f1 req = true)
    (hmax : (f1.intervals.map (fun i => i.countdown)).max? = some m) (hm : 0 < m) :
    (f.iterate req w).map Prod.snd = some Stage.Busy := by
  obtain ⟨fg, hit, hint, hbusy, hstg, hlen⟩ := iterate_gate f f1 req w hsub hgate
  rw [hit, busy_gate_busy_of_max_pos fg w m (by rw [hint]; exact hmax) hm]
  rfl

/-- C2 (counterexample to the claim as stated): a fabric in persisted
stage Slack with a pull interval whose countdown is 5 (so the maximum
interval countdown is greater than 0 both at call time and after the
frame), asked for Shaping, reports Shaping — not Busy — because the
Slack-to-Shaping transition returns before the busy gate is evaluated. -/
theorem busy_mask_skipped_on_transition :
    ((fabric_of Stage.Slack 0 [static_interval IntervalRole.Pull 5]).intervals.map
        (fun i => i.countdown)).max? = some 5 ∧
    ((fabric_of Stage.Slack 0 [static_interval IntervalRole.Pull 5]).iterate
        Stage.Shaping (calm_world 1 5 10)).map Prod.snd = some Stage.Shaping ∧
    ((fabric_of Stage.Slack 0 [static_interval IntervalRole.Pull 5]).iterate
        Stage.Shaping (calm_world 1 5 10)).map
          (fun p => (p.1.intervals.map (fun i => i.countdown)).max?) = some (some 4) ∧
    Stage.Shaping ≠ Stage.Busy := by decide!

/-- C2 witness: the amended theorem applied to a concrete Realizing
fabric whose single interval still has countdown 1 after the frame's
substep. -/
theorem busy_masks_stage_at_gate_witness :
    ((fabric_of Stage.Realizing 5 [static_interval IntervalRole.Pull 2]).iterate
        Stage.Slack (calm_world 1 5 10)).map Prod.snd = some Stage.Busy :=
  busy_masks_stage_at_gate
    (fabric_of Stage.Realizing 5 [static_interval IntervalRole.Pull 2])
    { fabric_of Stage.Realizing 5 [static_interval IntervalRole.Pull 1] with age := 1 }
    Stage.Slack (calm_world 1 5 10) 1
    (by decide!) (by decide) (by decide) (by decide)

/-- C3: a frame that reaches the busy-countdown branch (busy gate
reached, no interval countdown outstanding after the substeps, fabric
busy countdown positive) leaves the busy countdown at its old value
minus the frame's substep count when the old value is at least that
count, and at exactly 0 otherwise: the decrement clamps at zero instead
of wrapping on unsigned underflow. -/
theorem busy_countdown_clamped (f f1 : Fabric) (req : Stage) (w : World)
    (hsub : after_substeps f w = some f1)
    (hgate : reaches_busy_gate f1 req = true)
    (hmax : (f1.intervals.map (fun i => i.countdown)).max? = some 0)
    (hb : 0 < f1.busy_countdown) (hb32 : f1.busy_countdown < U32)
    (hipf : w.iterations_per_frame < U32) :
    (f.iterate req w).map (fun p => p.1.busy_countdown) =
      some (if w.iterations_per_frame ≤ f1.busy_countdown
            then f1.busy_countdown - w.iterations_per_frame else 0) := by
  obtain ⟨fg, hit, hint, hbusy, hstg, hlen⟩ := iterate_gate f f1 req w hsub hgate
  rw [hit, ← hbusy]
  rw [← hbusy] at hb hb32
  exact busy_gate_decrement fg w (by rw [hint]; exact hmax) hb hb32 hipf

/-- C3 witness: a Realizing fabric with busy countdown 7 stepped with 3
substeps per frame ends the frame with busy countdown 4; a second
application with busy countdown 2 and 3 substeps clamps to 0. -/
theorem busy_countdown_clamped_witness :
    ((fabric_of Stage.Realizing 7 [static_interval IntervalRole.Push 0]).iterate
        Stage.Busy (calm_world 3 7 10)).map (fun p => p.1.busy_countdown) = some 4 ∧
    ((fabric_of Stage.Realizing 2 [static_interval IntervalRole.Push 0]).iterate
        Stage.Busy (calm_world 3 2 10)).map (fun p => p.1.busy_countdown) = some 0 := by
  constructor
  · have h := busy_countdown_clamped
      (fabric_of Stage.Realizing 7 [static_interval IntervalRole.Push 0])
      { fabric_of Stage.Realizing 7 [static_interval IntervalRole.Push 0] with age := 3 }
      Stage.Busy (calm_world 3 7 10)
      (by decide!) (by decide) (by decide) (by decide) (by decide) (by decide)
    simpa using h
  · have h := busy_countdown_clamped
      (fabric_of Stage.Realizing 2 [static_interval IntervalRole.Push 0])
      { fabric_of Stage.Realizing 2 [static_interval IntervalRole.Push 0] with age := 3 }
      Stage.Busy (calm_world 3 2 10)
      (by decide!) (by decide) (by decide) (by decide) (by decide) (by decide)
    simpa using h

/-- C8: on a fabric with no intervals, any frame whose stage-machine
evaluation falls through to the busy gate panics, because the maximum
interval countdown is the unwrap of a maximum over an empty iterator;
in the embedding the call returns `none`. -/
theorem iterate_empty_intervals_panics (f : Fabric) (req : Stage) (w : World)
    (hint : f.intervals = []) (hgate : reaches_busy_gate f req = true) :
    f.iterate req w = none := by
  obtain ⟨f1, hsub, hint1, hst, hbusy, hlen⟩ := after_substeps_nil f w hint
  have hg1 : reaches_busy_gate f1 req = true := by
    rw [reaches_busy_gate_congr f f1 req hst hlen]
    exact hgate
  obtain ⟨fg, hit, hintg, _, _, _⟩ := iterate_gate f f1 req w hsub hg1
  rw [hit]
  exact busy_gate_nil fg w (by rw [hintg, hint1])

/-- C8 witness: a freshly created fabric (initial stage Busy, no
intervals) iterated with a requested stage other than Growing panics. -/
theorem iterate_empty_intervals_panics_witness :
    (Fabric.new 3).iterate Stage.Slack (calm_world 1 5 10) = none :=
  iterate_empty_intervals_panics (Fabric.new 3) Stage.Slack (calm_world 1 5 10)
    (by decide) (by decide)

/-- C1 (code bug): a fabric in persisted stage Realizing with busy
countdown 5, no outstanding interval countdowns, and 5 substeps per
frame.  On the exact frame where the busy countdown reaches 0 the call
reports Realizing — not Realized — and the persisted stage is not
promoted; the following frame reports Busy (and does so forever), because
the promotion branch of `fabric.rs` lines 132-137 tests
`busy_countdown == 0` inside `busy_countdown > 0` and is unreachable. -/
theorem realized_promotion_never_fires :
    (fabric_of Stage.Realizing 5 [static_interval IntervalRole.Push 0]).iterate
        Stage.Realizing (calm_world 5 5 10) =
      some ({ fabric_of Stage.Realizing 5 [static_interval IntervalRole.Push 0] with
              age := 5, busy_countdown := 0 }, Stage.Realizing) ∧
    ({ fabric_of Stage.Realizing 5 [static_interval IntervalRole.Push 0] with
        age := 5, busy_countdown := 0 }).iterate Stage.Realizing (calm_world 5 5 10) =
      some ({ fabric_of Stage.Realizing 5 [static_interval IntervalRole.Push 0] with
              age := 10, busy_countdown := 0 }, Stage.Busy) := by decide!

/-- C5: while the persisted stage is Growing, any frame step that
completes leaves the minimum joint altitude at exactly 0 — the Growing
branch shifts every joint by the negation of the current minimum before
the busy gate runs, and the busy gate does not touch the joints. -/
theorem growing_grounded (f f2 : Fabric) (req : Stage) (w : World) (s : Stage)
    (hstage : f.stage = Stage.Growing) (hit : f.iterate req w = some (f2, s)) :
    f2.minY = some 0 := by
  cases hsub : after_substeps f w with
  | none =>
    unfold Fabric.iterate at hit
    rw [hsub] at hit
    exact absurd hit (by simp)
  | some f1 =>
    have hst : f1.stage = Stage.Growing := by
      rw [(after_substeps_inv f w f1 hsub).1]
      exact hstage
    rw [iterate_growing f f1 req w hsub hst, Option.bind_eq_some] at hit
    obtain ⟨⟨f3, r⟩, hsa, hgate⟩ := hit
    have h0 := set_altitude_minY f1 0 f3 r hsa
    have hj := (busy_gate_joints f3 w f2 s hgate).1
    unfold Fabric.minY at h0 ⊢
    rw [hj]
    exact h0

/-- C5 witness: a Growing fabric whose joint starts at altitude 3 ends
the frame with minimum altitude exactly 0. -/
theorem growing_grounded_witness :
    Fabric.minY { fabric_with Stage.Growing 0 [joint0]
      [static_interval IntervalRole.Push 0] [] with age := 1 } = some 0 :=
  growing_grounded
    (fabric_with Stage.Growing 0 [Joint.new 0 3 0] [static_interval IntervalRole.Push 0] [])
    { fabric_with Stage.Growing 0 [joint0] [static_interval IntervalRole.Push 0] [] with
      age := 1 }
    Stage.Busy (calm_world 1 5 10) Stage.Busy rfl (by decide!)

/-- C9: on a fabric with no joints, `set_altitude` panics (unwrap of the
minimum of an empty collection); consequently `iterate` panics whenever
the persisted stage is Growing or Shaping, and `adopt_lengths` panics.
In the embedding each call returns `none`. -/
theorem empty_joints_panics (f : Fabric) (a : ℚ) (req : Stage) (w : World)
    (hj : f.joints = []) :
    f.set_altitude a = none ∧
    ((f.stage = Stage.Growing ∨ f.stage = Stage.Shaping) → f.iterate req w = none) ∧
    f.adopt_lengths = none := by
  refine ⟨set_altitude_none f a hj, ?_, ?_⟩
  · intro hOr
    cases hsub : after_substeps f w with
    | none =>
      unfold Fabric.iterate
      rw [hsub]
      rfl
    | some f1 =>
      have hinv := after_substeps_inv f w f1 hsub
      have hf1j : f1.joints = [] := by
        rw [← List.length_eq_zero, hinv.2.2.2.2.1, hj]
        rfl
      cases hOr with
      | inl hG =>
        rw [iterate_growing f f1 req w hsub (hinv.1.trans hG),
          set_altitude_none f1 0 hf1j]
        rfl
      | inr hS =>
        rw [iterate_shaping f f1 req w hsub (hinv.1.trans hS),
          set_altitude_none f1 0 hf1j]
        rfl
  · unfold Fabric.adopt_lengths
    cases hi : f.intervals with
    | nil =>
      rw [hj]
      simp only [adopt_intervals, Option.some_bind, Option.bind_eq_bind, List.map_nil]
      rw [set_altitude_none _ 0 rfl]
      rfl
    | cons i rest =>
      rw [hj]
      have hnone : adopt_intervals f.current_shape [] f.faces (i :: rest) = none := rfl
      rw [hnone]
      rfl

/-- C9 witness: a joint-less Growing fabric with one interval. -/
theorem empty_joints_panics_witness :
    headless.set_altitude 1 = none ∧
    headless.iterate Stage.Busy (calm_world 1 5 10) = none ∧
    headless.adopt_lengths = none := by
  have h := empty_joints_panics headless 1 Stage.Busy (calm_world 1 5 10) rfl
  exact ⟨h.1, h.2.1 (Or.inl rfl), h.2.2⟩

theorem adopt_intervals_spec (shape : Nat) (js : List Joint) (fs : List Face) :
    ∀ (l l2 : List Interval), adopt_intervals shape js fs l = some l2 →
      l2.length = l.length ∧
      ∀ k i0, l.get? k = some i0 → ∃ i2 rl,
        l2.get? k = some i2 ∧ i0.calculate_current_length js fs = some rl ∧
        i2.rest_length = rl ∧ i2.length_for_shape.get? shape = some rl := by
  intro l
  induction l with
  | nil =>
    intro l2 h
    cases h
    exact ⟨rfl, fun k i0 h0 => Option.noConfusion h0⟩
  | cons i rest ih =>
    intro l2 h
    simp only [adopt_intervals, Option.bind_eq_bind, Option.bind_eq_some,
      Option.pure_def] at h
    obtain ⟨rl, hrl, h⟩ := h
    split at h
    next hshape =>
      rw [Option.bind_eq_some] at h
      obtain ⟨rest2, hrest2, h⟩ := h
      cases h
      obtain ⟨hlen, hget⟩ := ih rest2 hrest2
      refine ⟨by simp [hlen], ?_⟩
      intro k i0 h0
      cases k with
      | zero =>
        cases h0
        refine ⟨_, rl, rfl, hrl, rfl, ?_⟩
        show (i.length_for_shape.set shape rl).get? shape = some rl
        rw [List.get?_eq_getElem?, List.getElem?_set_self hshape]
      | succ k => exact hget k i0 h0
    next => exact absurd h (by simp)

/-- C4: after a successful `adopt_lengths`, every interval's rest length
equals its measured length at call time and that value is stored in the
active shape's stored-length slot, every joint's velocity and force are
exactly zero, the minimum joint altitude is 0, and the persisted stage is
Slack, which is also the returned stage. -/
theorem adopt_lengths_spec (f f2 : Fabric) (s : Stage)
    (h : f.adopt_lengths = some (f2, s)) :
    s = Stage.Slack ∧ f2.stage = Stage.Slack ∧
    f2.intervals.length = f.intervals.length ∧
    (∀ k i0, f.intervals.get? k = some i0 → ∃ i2 rl,
      f2.intervals.get? k = some i2 ∧
      i0.calculate_current_length f.joints f.faces = some rl ∧
      i2.rest_length = rl ∧ i2.length_for_shape.get? f.current_shape = some rl) ∧
    (∀ j, j ∈ f2.joints → j.velocity = V3.zero ∧ j.force = V3.zero) ∧
    f2.minY = some 0 := by
  simp only [Fabric.adopt_lengths, Option.bind_eq_bind, Option.pure_def,
    Option.bind_eq_some] at h
  obtain ⟨ivs, hivs, h⟩ := h
  obtain ⟨⟨f3, r⟩, hsa, h⟩ := h
  cases h
  obtain ⟨hlen, hget⟩ := adopt_intervals_spec f.current_shape f.joints f.faces
    f.intervals ivs hivs
  obtain ⟨low, hm, hr, hf3⟩ := set_altitude_inv _ 0 f3 r hsa
  have hminY : f3.minY = some 0 := set_altitude_minY _ 0 f3 r hsa
  refine ⟨rfl, rfl, ?_, ?_, ?_, ?_⟩
  · show f3.intervals.length = f.intervals.length
    rw [hf3]
    exact hlen
  · intro k i0 h0
    obtain ⟨i2, rl, hi2, hcl, hrl, hslot⟩ := hget k i0 h0
    refine ⟨i2, rl, ?_, hcl, hrl, hslot⟩
    show f3.intervals.get? k = some i2
    rw [hf3]
    exact hi2
  · intro j hj
    have hj3 : j ∈ f3.joints := hj
    rw [hf3] at hj3
    have hj4 : j ∈ (f.joints.map
        (fun j => { j with force := V3.zero, velocity := V3.zero })).map
        (fun j => { j with
          location := { j.location with y := j.location.y + (0 - low) }
          velocity := V3.zero }) := hj3
    simp only [List.mem_map] at hj4
    obtain ⟨a, ⟨b, _, hb⟩, ha⟩ := hj4
    constructor
    · rw [← ha]
    · rw [← ha, ← hb]
  · exact hminY

/-- C4 witness: a one-joint fabric with a single self-loop push interval
adopts its measured length 0, stores it in shape slot 0, and lands in
Slack with minimum altitude 0. -/
theorem adopt_lengths_spec_witness :
    (fabric_of Stage.Busy 0 [static_interval IntervalRole.Push 0]).adopt_lengths =
      some (fabricC4post, Stage.Slack) ∧
    fabricC4post.stage = Stage.Slack ∧ fabricC4post.minY = some 0 := by
  have h := adopt_lengths_spec (fabric_of Stage.Busy 0 [static_interval IntervalRole.Push 0])
    fabricC4post Stage.Slack (by decide!)
  exact ⟨by decide!, h.2.1, h.2.2.2.2.2⟩

/-- C6: from persisted stage Slack, a frame requesting Shaping schedules,
for every push interval of the post-substep state, a rest-length ramp
toward the shaping-pretension factor times its current rest length over
the constants supplier's interval-countdown substeps, leaves every pull
interval entirely unchanged by the transition, sets the persisted stage
to Shaping and reports Shaping. -/
theorem slack_to_shaping_spec (f f1 : Fabric) (w : World)
    (hstage : f.stage = Stage.Slack)
    (hsub : after_substeps f w = some f1)
    (hpos : 0 < w.interval_countdown) (hlt : w.interval_countdown < U16) :
    ∃ f2, f.iterate Stage.Shaping w = some (f2, Stage.Shaping) ∧
      f2.stage = Stage.Shaping ∧
      f2.intervals.length = f1.intervals.length ∧
      ∀ k i1, f1.intervals.get? k = some i1 →
        (i1.is_push = false → f2.intervals.get? k = some i1) ∧
        (i1.is_push = true → f2.intervals.get? k = some
          { i1 with target_length := i1.rest_length * w.shaping_pretenst_factor
                    countdown := w.interval_countdown }) := by
  have hst1 : f1.stage = Stage.Slack := by
    rw [(after_substeps_inv f w f1 hsub).1]
    exact hstage
  have hit := iterate_slack_shaping f f1 w hsub hst1
  refine ⟨(f1.slack_to_shaping w).1, ?_, rfl, ?_, ?_⟩
  · rw [hit]
    rfl
  · show (f1.intervals.map _).length = f1.intervals.length
    simp
  · intro k i1 hk
    have hgk : (f1.slack_to_shaping w).1.intervals.get? k =
        some (if i1.is_push then
          i1.multiply_rest_length w.shaping_pretenst_factor
            (w.interval_countdown % U16) REST_SHAPE
        else i1) := by
      show (f1.intervals.map _).get? k = _
      rw [List.get?_map, hk]
      rfl
    constructor
    · intro hp
      rw [hgk]
      simp [hp]
    · intro hp
      rw [hgk]
      have hcd : w.interval_countdown % U16 = w.interval_countdown :=
        Nat.mod_eq_of_lt hlt
      simp only [hp, if_true, Interval.multiply_rest_length, hcd,
        if_neg (Nat.pos_iff_ne_zero.mp hpos)]

/-- C6 witness: a Slack fabric with one push and one pull interval,
requested Shaping, reports Shaping with persisted stage Shaping. -/
theorem slack_to_shaping_spec_witness :
    ∃ f2, (fabric_of Stage.Slack 0 [static_interval IntervalRole.Push 0,
        static_interval IntervalRole.Pull 0]).iterate Stage.Shaping (calm_world 1 5 10) =
      some (f2, Stage.Shaping) ∧ f2.stage = Stage.Shaping := by
  obtain ⟨f2, h1, h2, _, _⟩ := slack_to_shaping_spec
    (fabric_of Stage.Slack 0 [static_interval IntervalRole.Push 0,
      static_interval IntervalRole.Pull 0])
    { fabric_of Stage.Slack 0 [static_interval IntervalRole.Push 0,
        static_interval IntervalRole.Pull 0] with age := 1 }
    (calm_world 1 5 10) rfl (by decide!) (by decide) (by decide)
  exact ⟨f2, h1, h2⟩

/-- C7: `set_altitude` on a fabric with at least one joint returns the
applied shift (target altitude minus the previous minimum), leaves the
minimum joint altitude at the target, shifts all joints by the same
amount (pairwise position differences unchanged), and zeroes every
joint velocity. -/
theorem set_altitude_spec (f : Fabric) (a : ℚ) (hne : f.joints ≠ []) :
    ∃ f2 low,
      (f.joints.map (fun j => j.location.y)).min? = some low ∧
      f.set_altitude a = some (f2, a - low) ∧
      f2.minY = some a ∧
      f2.joints.length = f.joints.length ∧
      (∀ k l ja jb ja0 jb0,
        f2.joints.get? k = some ja → f2.joints.get? l = some jb →
        f.joints.get? k = some ja0 → f.joints.get? l = some jb0 →
        V3.sub ja.location jb.location = V3.sub ja0.location jb0.location) ∧
      (∀ j, j ∈ f2.joints → j.velocity = V3.zero) := by
  obtain ⟨f2, r, hsa⟩ := set_altitude_is_some f a hne
  obtain ⟨low, hm, hr, hf2⟩ := set_altitude_inv f a f2 r hsa
  have hminY := set_altitude_minY f a f2 r hsa
  subst hf2
  have hgloc : ∀ u v : Joint,
      V3.sub
        ({ u with location := { u.location with y := u.location.y + (a - low) }
                  velocity := V3.zero } : Joint).location
        ({ v with location := { v.location with y := v.location.y + (a - low) }
                  velocity := V3.zero } : Joint).location =
      V3.sub u.location v.location := by
    intro u v
    simp only [V3.sub, V3.mk.injEq]
    refine ⟨trivial, by ring, trivial⟩
  rw [hr] at hsa
  refine ⟨_, low, hm, hsa, hminY, ?_, ?_, ?_⟩
  · simp
  · intro k l ja jb ja0 jb0 hk hl hk0 hl0
    have hk2 : (f.joints.map (fun j => { j with
        location := { j.location with y := j.location.y + (a - low) }
        velocity := V3.zero })).get? k = some ja := hk
    have hl2 : (f.joints.map (fun j => { j with
        location := { j.location with y := j.location.y + (a - low) }
        velocity := V3.zero })).get? l = some jb := hl
    rw [List.get?_map, hk0] at hk2
    rw [List.get?_map, hl0] at hl2
    cases hk2
    cases hl2
    exact hgloc ja0 jb0
  · intro j hj
    have hj2 : j ∈ f.joints.map (fun j => { j with
        location := { j.location with y := j.location.y + (a - low) }
        velocity := V3.zero }) := hj
    simp only [List.mem_map] at hj2
    obtain ⟨u, _, hu⟩ := hj2
    rw [← hu]

/-- C7 witness: two joints at altitudes 2 and 5; the applied shift to
target 7 is 5 and the resulting minimum altitude is 7. -/
theorem set_altitude_spec_witness :
    ∃ f2 low,
      ((fabric_with Stage.Busy 0 [Joint.new 0 2 0, Joint.new 1 5 0] [] []).joints.map
        (fun j => j.location.y)).min? = some low ∧
      (fabric_with Stage.Busy 0 [Joint.new 0 2 0, Joint.new 1 5 0] [] []).set_altitude 7 =
        some (f2, 7 - low) ∧ f2.minY = some 7 := by
  obtain ⟨f2, low, h1, h2, h3, _⟩ := set_altitude_spec
    (fabric_with Stage.Busy 0 [Joint.new 0 2 0, Joint.new 1 5 0] [] []) 7 (by decide)
  exact ⟨f2, low, h1, h2, h3⟩

/-- C10: for a valid index, `remove_interval` and `remove_face` drop the
element at that index, decrease the corresponding count by one, keep
every earlier element at its index, and shift every later element down
by exactly one (so a retained index afterwards refers to a different
element). -/
theorem remove_shifts_indices (f : Fabric) (i : Nat) :
    (i < f.intervals.length →
      ∃ f2, f.remove_interval i = some f2 ∧
        f2.intervals.length = f.intervals.length - 1 ∧
        (∀ j, j < i → f2.intervals.get? j = f.intervals.get? j) ∧
        (∀ j, i < j → f2.intervals.get? (j - 1) = f.intervals.get? j)) ∧
    (i < f.faces.length →
      ∃ f3, f.remove_face i = some f3 ∧
        f3.faces.length = f.faces.length - 1 ∧
        (∀ j, j < i → f3.faces.get? j = f.faces.get? j) ∧
        (∀ j, i < j → f3.faces.get? (j - 1) = f.faces.get? j)) := by
  constructor
  · intro hi
    refine ⟨{ f with intervals := f.intervals.eraseIdx i }, ?_, ?_, ?_, ?_⟩
    · unfold Fabric.remove_interval
      rw [if_pos hi]
    · show (f.intervals.eraseIdx i).length = f.intervals.length - 1
      have := List.length_eraseIdx_add_one hi
      omega
    · intro j hj
      exact eraseIdx_get?_of_lt f.intervals i j hj
    · intro j hj
      exact eraseIdx_get?_of_gt f.intervals i j hj
  · intro hi
    refine ⟨{ f with faces := f.faces.eraseIdx i }, ?_, ?_, ?_, ?_⟩
    · unfold Fabric.remove_face
      rw [if_pos hi]
    · show (f.faces.eraseIdx i).length = f.faces.length - 1
      have := List.length_eraseIdx_add_one hi
      omega
    · intro j hj
      exact eraseIdx_get?_of_lt f.faces i j hj
    · intro j hj
      exact eraseIdx_get?_of_gt f.faces i j hj

/-- C10 witness: removing index 0 from a fabric with two intervals and
two faces leaves one of each, and the element formerly at index 1 is now
at index 0. -/
theorem remove_shifts_indices_witness :
    ∃ f2 f3, fabricC10.remove_interval 0 = some f2 ∧ fabricC10.remove_face 0 = some f3 ∧
      f2.intervals.length = 1 ∧ f3.faces.length = 1 ∧
      f2.intervals.get? 0 = fabricC10.intervals.get? 1 ∧
      f3.faces.get? 0 = fabricC10.faces.get? 1 := by
  obtain ⟨h1, h2⟩ := remove_shifts_indices fabricC10 0
  obtain ⟨f2, ha, hb, _, hd⟩ := h1 (by decide)
  obtain ⟨f3, ga, gb, _, gd⟩ := h2 (by decide)
  refine ⟨f2, f3, ha, ga, ?_, ?_, ?_, ?_⟩
  · rw [hb]
    rfl
  · rw [gb]
    rfl
  · exact hd 1 (by omega)
  · exact gd 1 (by omega)

end Galapagotchi
